import Mathlib

/-!
# rclark/fixtures: HTTP fixture server

A shallow embedding of `server.go` (package `fixtures`) and the properties its
specification states about it.

Conventions of the embedding

* Go functions with side effects become state-passing functions.  A handler
  (`http.Handler`) receives the response writer, the request and the state
  `σ` of everything else it may touch, and returns the writer and that state
  after the call.
* A Go `panic` becomes `Except.error`.
* Byte strings (`[]byte`) are `String`s.
* The pieces of `net/http` the package calls (`http.NotFound`, `http.Error`,
  the server's `ResponseWriter`, `ServeMux.Handle`) are embedded after the
  standard library, in-memory, as far as the package observes them.  What
  the multiplexer accepts as a pattern differs between versions of the
  library and is a parameter (`PatternRules`).
-/

namespace Fixtures

/-! ## net/url, net/http: requests and response writers -/

/-- The fields of `url.URL` that locate the target of a request. -/
structure URL where
  Scheme : String
  Host : String
  Path : String
  RawQuery : String
deriving DecidableEq, Repr

/-- An `http.Request`: method, URL, headers and body.  The URL is never nil:
`http.Client` rejects a request with a nil URL before it reaches a transport,
and the server always sets it. -/
structure Request where
  Method : String
  URL : URL
  Header : List (String × String)
  Body : String
deriving DecidableEq, Repr

/-- An `http.Header`, as key/value pairs. -/
abbrev Header := List (String × String)

/-- The `Header.Del` method: removes the values of `key`. -/
def Header.Del (h : Header) (key : String) : Header :=
  h.filter (fun kv => kv.1 != key)

/-- The `Header.Set` method: replaces the values of `key` by `value`. -/
def Header.Set (h : Header) (key value : String) : Header :=
  Header.Del h key ++ [(key, value)]

/-- The `Header.get` method: the value of `key`, or the empty string. -/
def Header.get (h : Header) (key : String) : String :=
  match h.find? (fun kv => kv.1 == key) with
  | some kv => kv.2
  | none => ""

/-- The `http.ResponseWriter` of the server (the type `response` of
net/http), as the handler and the client see it: the request it answers, the
header map, the status code once the header has been written (`none`
before), the Content-Length declared when the header was written, the number
of body bytes the handler has written, and the body sent to the client.
(A connection taken over with `Hijack` is not part of the embedding.) -/
structure ResponseWriter where
  req : Request
  Header : Header
  Code : Option Nat
  contentLength : Option Nat
  written : Nat
  Body : String
deriving DecidableEq, Repr

/-- The writer the server hands to the handler of the request `r`. -/
def ResponseWriter.fresh (r : Request) : ResponseWriter :=
  { req := r, Header := [], Code := none, contentLength := none, written := 0, Body := "" }

/-- The constant `http.StatusOK`. -/
def StatusOK : Nat := 200

/-- The constant `http.StatusNotFound`. -/
def StatusNotFound : Nat := 404

/-- The value of a Content-Length header as `WriteHeader` reads it:
`strconv.ParseInt(cl, 10, 64)` without error and not negative.  An optional
sign (code 43 is the plus sign, 45 the minus sign) is followed by one or more
decimal digits, and the value fits in 63 bits. -/
def parseContentLength (cl : String) : Option Nat :=
  match cl.data with
  | [] => none
  | c :: rest =>
    let digits := if c.toNat = 43 ∨ c.toNat = 45 then rest else c :: rest
    if digits = [] ∨ digits.all Char.isDigit = false then none
    else
      let v : Nat := digits.foldl (fun n d => 10 * n + (d.toNat - 48)) 0
      if c.toNat = 45 then (if v = 0 then some 0 else none)
      else if v < 2 ^ 63 then some v
      else none

/-- The function `bodyAllowedForStatus` of net/http: no body after a 1xx, 204
or 304 status. -/
def bodyAllowedForStatus (status : Nat) : Bool :=
  if 100 ≤ status ∧ status ≤ 199 then false
  else if status = 204 then false
  else if status = 304 then false
  else true

/-- The `ResponseWriter.WriteHeader` method.  The first call with a final
status code fixes the status and reads the declared Content-Length (a value
that does not parse is dropped from the header); later calls are ignored.  A
1xx code other than 101 sends an interim response and leaves the final header
unwritten.  (A code outside 100..999 makes the method panic; nothing here
passes one, and the writer is left as it is.) -/
def ResponseWriter.WriteHeader (w : ResponseWriter) (code : Nat) : ResponseWriter :=
  match w.Code with
  | some _ => w
  | none =>
    if code < 100 ∨ 999 < code then w
    else if 100 ≤ code ∧ code ≤ 199 ∧ code ≠ 101 then w
    else
      let cl := Header.get w.Header "Content-Length"
      if cl ≠ "" then
        match parseContentLength cl with
        | some v => { w with Code := some code, contentLength := some v }
        | none => { w with Code := some code, Header := Header.Del w.Header "Content-Length" }
      else { w with Code := some code }

/-- The `ResponseWriter.Write` method.  It writes the header with status 200
when it has not been written yet.  Empty data writes nothing; data is refused
when the status allows no body (`ErrBodyNotAllowed`) or when it exceeds the
declared Content-Length (`ErrContentLength`); the data of the answer to a
HEAD request is accepted and dropped; otherwise the data is appended to the
body. -/
def ResponseWriter.Write (w : ResponseWriter) (data : String) : ResponseWriter :=
  let w1 := match w.Code with
    | some _ => w
    | none => w.WriteHeader StatusOK
  if data.utf8ByteSize = 0 then w1
  else
    match w1.Code with
    | none => w1
    | some status =>
      if bodyAllowedForStatus status = false then w1
      else
        let w2 := { w1 with written := w1.written + data.utf8ByteSize }
        match w2.contentLength with
        | some cl =>
          if cl < w2.written then w2
          else if w2.req.Method = "HEAD" then w2
          else { w2 with Body := w2.Body ++ data }
        | none =>
          if w2.req.Method = "HEAD" then w2
          else { w2 with Body := w2.Body ++ data }

/-- The function `http.Error`: replies with the error message as plain text
and the given status code; the message is written with `fmt.Fprintln`, so it
is followed by a newline. -/
def Error (w : ResponseWriter) (error : String) (code : Nat) : ResponseWriter :=
  let h := Header.Del w.Header "Content-Length"
  let h := Header.Set h "Content-Type" "text/plain; charset=utf-8"
  let h := Header.Set h "X-Content-Type-Options" "nosniff"
  let w := { w with Header := h }
  let w := w.WriteHeader code
  w.Write (error ++ "\n")

/-- The function `http.NotFound`: `Error(w, "404 page not found", StatusNotFound)`. -/
def NotFound (w : ResponseWriter) (_r : Request) : ResponseWriter :=
  Error w "404 page not found" StatusNotFound

/-- An `http.Handler`: `ServeHTTP(w, r)` run in state `s` gives the writer and
the state after the call. -/
abbrev Handler (σ : Type) := ResponseWriter → Request → σ → ResponseWriter × σ

/-- An `http.HandlerFunc`: a function used as a handler; its `ServeHTTP` calls
the function. -/
abbrev HandlerFunc (σ : Type) := Handler σ

/-! ## server.go: the method filter -/

/-- The body of the closure `allowed` returns (server.go 31-40): the range
loop over `methods`, which calls `handler.ServeHTTP(w, r)` and returns at the
first method equal to `r.Method`, and `http.NotFound(w, r)` after the loop. -/
def allowed.serve {σ : Type} (handler : Handler σ) : List String → Handler σ
  | [], w, r, s => (NotFound w r, s)
  | method :: rest, w, r, s =>
    if r.Method = method then handler w r s
    else allowed.serve handler rest w r s

/-- The function `allowed` (server.go 26-41). -/
def allowed {σ : Type} (handler : Handler σ) (methods : List String) : Handler σ :=
  if methods.length = 0 then handler
  else fun w r s => allowed.serve handler methods w r s

/-- A handler instrumented with a counter of its invocations, kept next to
its state: every call of `counting h` runs `h` and adds one. -/
def counting {σ : Type} (h : Handler σ) : Handler (σ × Nat) :=
  fun w r s => ((h w r s.1).1, ((h w r s.1).2, s.2 + 1))

/-! ## net/http: errors, panics and the request multiplexer -/

/-- A Go `error` value, up to the one comparison the package makes: the
sentinel `http.ErrServerClosed`, or any other error. -/
inductive GoError where
  | ErrServerClosed
  | other (msg : String)
deriving DecidableEq, Repr

/-- The values the package and the calls it makes can panic with. -/
inductive Panic where
  | invalidPattern
  | malformedPattern (pattern : String)
  | multipleRegistrations (pattern : String)
  | err (e : GoError)
deriving DecidableEq, Repr

/-- What the version of net/http in use does with patterns, which the package
leaves to it: which pattern strings it `accepts` (since Go 1.22 a pattern is
parsed and, for instance, must contain a slash), and which two different
patterns are in conflict (since Go 1.22, patterns that match the same
requests with none more specific).  A pattern equal to a registered one is
refused in every version, whatever these say. -/
structure PatternRules where
  accepts : String → Bool
  conflicts : String → String → Bool

/-- The rules of net/http before Go 1.22: every non-empty pattern is
accepted, and only equal patterns collide. -/
def classicRules : PatternRules :=
  { accepts := fun _ => true, conflicts := fun _ _ => false }

/-- An `http.ServeMux`, as far as registration goes: the pattern rules and the
table `m` from pattern to handler, in registration order. -/
structure ServeMux (σ : Type) where
  rules : PatternRules
  m : List (String × Handler σ)

/-- The function `http.NewServeMux`. -/
def NewServeMux {σ : Type} (rules : PatternRules) : ServeMux σ :=
  { rules := rules, m := [] }

/-- The handler registered under exactly this pattern, if there is one. -/
def ServeMux.registered {σ : Type} (mux : ServeMux σ) (pattern : String) : Option (Handler σ) :=
  match mux.m.find? (fun e => e.1 == pattern) with
  | some e => some e.2
  | none => none

/-- The `ServeMux.Handle` method: panics on the empty pattern, on a pattern
the rules do not accept, and on a pattern that is equal to a registered one or
in conflict with one; adds the entry otherwise.  (Handlers are functions
here: a nil handler, with which the method panics too, is not a value of
`Handler`.) -/
def ServeMux.Handle {σ : Type} (mux : ServeMux σ) (pattern : String) (handler : Handler σ) :
    Except Panic (ServeMux σ) :=
  if pattern = "" then .error Panic.invalidPattern
  else if mux.rules.accepts pattern = false then .error (Panic.malformedPattern pattern)
  else if mux.m.any (fun e => e.1 == pattern || mux.rules.conflicts e.1 pattern) then
    .error (Panic.multipleRegistrations pattern)
  else .ok { mux with m := mux.m ++ [(pattern, handler)] }

/-- The `ServeMux.HandleFunc` method: `mux.Handle(pattern, HandlerFunc(handler))`. -/
def ServeMux.HandleFunc {σ : Type} (mux : ServeMux σ) (pattern : String) (handler : HandlerFunc σ) :
    Except Panic (ServeMux σ) :=
  mux.Handle pattern handler

/-! ## server.go: the server and its options -/

/-- The type `Server` (server.go 10-12). -/
structure Server (σ : Type) where
  mux : ServeMux σ

/-- The type `ServerOption` (server.go 15): a function that updates the
server, or panics. -/
abbrev ServerOption (σ : Type) := Server σ → Except Panic (Server σ)

/-- The function `WithFixture` (server.go 18-24).  `ServeFile` stands for
`http.ServeFile`, which reads the file when the request is served. -/
def WithFixture {σ : Type} (ServeFile : ResponseWriter → Request → String → σ → ResponseWriter × σ)
    (urlPath filePath : String) : ServerOption σ :=
  fun s =>
    match s.mux.HandleFunc urlPath (fun w r => ServeFile w r filePath) with
    | .error p => .error p
    | .ok mux => .ok { s with mux := mux }

/-- The function `WithHandler` (server.go 47-51). -/
def WithHandler {σ : Type} (urlPath : String) (handler : Handler σ) (methods : List String) :
    ServerOption σ :=
  fun s =>
    match s.mux.Handle urlPath (allowed handler methods) with
    | .error p => .error p
    | .ok mux => .ok { s with mux := mux }

/-- The function `WithHandlerFunc` (server.go 57-61). -/
def WithHandlerFunc {σ : Type} (urlPath : String) (handler : HandlerFunc σ) (methods : List String) :
    ServerOption σ :=
  fun s =>
    match s.mux.Handle urlPath (allowed handler methods) with
    | .error p => .error p
    | .ok mux => .ok { s with mux := mux }

/-- The loop of `NewServer` (server.go 68-70): applies the options in order;
a panic of one of them ends the construction. -/
def NewServer.apply {σ : Type} : List (ServerOption σ) → Server σ → Except Panic (Server σ)
  | [], s => .ok s
  | opt :: rest, s =>
    match opt s with
    | .error p => .error p
    | .ok s1 => NewServer.apply rest s1

/-- The function `NewServer` (server.go 65-73), for the pattern rules of the
net/http in use. -/
def NewServer {σ : Type} (rules : PatternRules) (opts : List (ServerOption σ)) :
    Except Panic (Server σ) :=
  NewServer.apply opts { mux := NewServeMux rules }

/-- A call of one of the three exported option constructors, with its
arguments. -/
inductive OptionCall (σ : Type) where
  | withFixture (ServeFile : ResponseWriter → Request → String → σ → ResponseWriter × σ)
      (urlPath filePath : String)
  | withHandler (urlPath : String) (handler : Handler σ) (methods : List String)
  | withHandlerFunc (urlPath : String) (handler : HandlerFunc σ) (methods : List String)

/-- The option the call evaluates to. -/
def OptionCall.option {σ : Type} : OptionCall σ → ServerOption σ
  | .withFixture ServeFile urlPath filePath => WithFixture ServeFile urlPath filePath
  | .withHandler urlPath handler methods => WithHandler urlPath handler methods
  | .withHandlerFunc urlPath handler methods => WithHandlerFunc urlPath handler methods

/-- The URL path the call registers. -/
def OptionCall.urlPath {σ : Type} : OptionCall σ → String
  | .withFixture _ urlPath _ => urlPath
  | .withHandler urlPath _ _ => urlPath
  | .withHandlerFunc urlPath _ _ => urlPath

/-- The handler the call registers at its path. -/
def OptionCall.handler {σ : Type} : OptionCall σ → Handler σ
  | .withFixture ServeFile _ filePath => fun w r => ServeFile w r filePath
  | .withHandler _ handler methods => allowed handler methods
  | .withHandlerFunc _ handler methods => allowed handler methods

/-! ## server.go: the redirecting transport -/

/-- An `http.Response`. -/
structure Response where
  StatusCode : Nat
  Header : Header
  Body : String
deriving DecidableEq, Repr

/-- An `http.RoundTripper`: `RoundTrip(req)` run in the state `ν` of the
network gives the pair `(*Response, error)` and the state after the call. -/
abbrev RoundTripper (ν : Type) := Request → ν → (Option Response × Option GoError) × ν

/-- The type `transport` (server.go 75-78). -/
structure transport (ν : Type) where
  Transport : RoundTripper ν
  Domain : String

/-- The method `transport.RoundTrip` (server.go 80-84). -/
def transport.RoundTrip {ν : Type} (t : transport ν) (req : Request) :
    ν → (Option Response × Option GoError) × ν :=
  let req := { req with URL := { req.URL with Host := t.Domain } }
  let req := { req with URL := { req.URL with Scheme := "http" } }
  t.Transport req

/-! ## server.go: starting and stopping the server -/

/-- The address of the listener: `net.Listen("tcp", "127.0.0.1:0")` binds an
IPv4 address, given by its four octets. -/
structure IP where
  a : Nat
  b : Nat
  c : Nat
  d : Nat
deriving DecidableEq, Repr

/-- The method `net.IP.String` on an IPv4 address: dotted decimal. -/
def IP.String (ip : IP) : String :=
  toString ip.a ++ "." ++ toString ip.b ++ "." ++ toString ip.c ++ "." ++ toString ip.d

/-- A `net.TCPAddr`. -/
structure TCPAddr where
  IP : IP
  Port : Nat
deriving DecidableEq, Repr

/-- An `http.Client`, with the transport `Listen` gives it. -/
structure Client (ν : Type) where
  Transport : transport ν

/-- The type `ServerData` (server.go 87-90). -/
structure ServerData (ν : Type) where
  Addr : TCPAddr
  Client : Client ν

/-- What one call of `Listen` created, as the operating system and the HTTP
server see it: whether the listener socket is closed, whether `server.Close`
has run, whether `server.Serve` has taken the listener over, and the close
calls made so far, in order. -/
structure Runtime where
  listenerClosed : Bool
  serverClosed : Bool
  serving : Bool
  closes : List String
deriving DecidableEq, Repr

/-- The state right after the listener is bound. -/
def Runtime.bound : Runtime :=
  { listenerClosed := false, serverClosed := false, serving := false, closes := [] }

/-- The method `http.Server.Close`: marks the server as shut down and closes
the listeners it is serving. -/
def Runtime.serverClose (rt : Runtime) : Runtime :=
  { rt with
    serverClosed := true
    listenerClosed := rt.listenerClosed || rt.serving
    closes := rt.closes ++ ["server.Close"] }

/-- The method `net.Listener.Close`: closes the listener socket. -/
def Runtime.listenerClose (rt : Runtime) : Runtime :=
  { rt with listenerClosed := true, closes := rt.closes ++ ["listener.Close"] }

/-- Go runs the deferred calls of a function in reverse order of the `defer`
statements: `deferred` lists them in the order they were deferred. -/
def runDeferred (deferred : List (Runtime → Runtime)) (rt : Runtime) : Runtime :=
  deferred.foldr (fun call acc => call acc) rt

/-- The closure `close` of `Listen` (server.go 110-113): defers
`listener.Close()`, then `server.Close()`, and returns. -/
def Listen.close (rt : Runtime) : Runtime :=
  runDeferred [Runtime.listenerClose, Runtime.serverClose] rt

/-- The goroutine of `Listen` (server.go 115-119), given what `server.Serve`
returned: panics with the error when it is neither nil nor
`http.ErrServerClosed`. -/
def Listen.serve (served : Option GoError) : Except Panic Unit :=
  match served with
  | none => .ok ()
  | some err => if err ≠ GoError.ErrServerClosed then .error (Panic.err err) else .ok ()

/-- The method `Server.Listen` (server.go 94-122), given what `net.Listen`
returned (the address of the listener, or an error) and `http.DefaultTransport`:
the server data, the teardown function and the state of the listener and
server just created, or a panic when binding failed. -/
def Server.Listen {σ ν : Type} (_s : Server σ) (listened : Except GoError TCPAddr)
    (DefaultTransport : RoundTripper ν) :
    Except Panic (ServerData ν × (Runtime → Runtime) × Runtime) :=
  match listened with
  | .error err => .error (Panic.err err)
  | .ok addr =>
    let data : ServerData ν :=
      { Addr := addr
        Client :=
          { Transport :=
              { Transport := DefaultTransport
                Domain := addr.IP.String ++ ":" ++ toString addr.Port } } }
    .ok (data, Listen.close, Runtime.bound)

/-- The lifecycle of a server. -/
inductive Phase where
  | Unstarted
  | Listening
  | Stopped
deriving DecidableEq, Repr

/-- The phase of a server: unstarted before `Listen`, listening while the
listener is open and the server has not been closed, stopped afterwards. -/
def phase : Option Runtime → Phase
  | none => Phase.Unstarted
  | some rt => if rt.listenerClosed || rt.serverClosed then Phase.Stopped else Phase.Listening

/-- Whether the bound address takes a new connection. -/
def Runtime.accepts (rt : Runtime) : Bool :=
  !rt.listenerClosed

/-- What can happen to a started server through what `Listen` returned and
started: the teardown function is called, the goroutine reaches
`server.Serve`, or a request is sent through the client. -/
inductive Op where
  | teardown
  | serve
  | request
deriving DecidableEq, Repr

/-- One operation.  `server.Serve` takes the listener over unless the server
has been closed, in which case it returns `http.ErrServerClosed` at once; a
request changes neither the listener nor the server. -/
def Runtime.step (rt : Runtime) : Op → Runtime
  | Op.teardown => Listen.close rt
  | Op.serve => if rt.serverClosed then rt else { rt with serving := true }
  | Op.request => rt

/-- A sequence of operations, in order. -/
def Runtime.run (rt : Runtime) : List Op → Runtime
  | [] => rt
  | op :: rest => Runtime.run (rt.step op) rest

/-! ## server_test.go: the handler and requests of the examples -/

/-- The handler of the examples (server_test.go 88-92): writes the text. -/
def exampleHandler : Handler Unit :=
  fun w _ s => (w.Write "Lorem ipsum dolor sit amet", s)

/-- A second handler, to tell two registrations apart. -/
def otherHandler : Handler Unit :=
  fun w _ s => (w.Write "other", s)

/-- The request of `http.DefaultClient.Get(url)` for the path "/data". -/
def exampleGet : Request :=
  { Method := "GET"
    URL := { Scheme := "http", Host := "127.0.0.1:8080", Path := "/data", RawQuery := "" }
    Header := []
    Body := "" }

/-- The request of `http.DefaultClient.Post(url, "text/plain", nil)` for the
path "/data". -/
def examplePost : Request :=
  { Method := "POST"
    URL := { Scheme := "http", Host := "127.0.0.1:8080", Path := "/data", RawQuery := "" }
    Header := [("Content-Type", "text/plain")]
    Body := "" }

/-- The request of `http.DefaultClient.Head(url)` for the path "/data". -/
def exampleHead : Request :=
  { Method := "HEAD"
    URL := { Scheme := "http", Host := "127.0.0.1:8080", Path := "/data", RawQuery := "" }
    Header := []
    Body := "" }

/-- The request of `info.Client.Get("https://just.made.this.up.com/data")`
(server_test.go 160), here with a query. -/
def madeUpGet : Request :=
  { Method := "GET"
    URL := { Scheme := "https", Host := "just.made.this.up.com", Path := "/data", RawQuery := "a=1" }
    Header := [("Accept", "text/plain")]
    Body := "" }

/-- A server without routes. -/
def exampleServer : Server Unit :=
  { mux := NewServeMux classicRules }

/-- The address of a listener on the loopback interface, port 8080. -/
def loopback : TCPAddr :=
  { IP := { a := 127, b := 0, c := 0, d := 1 }, Port := 8080 }

/-- A delegate transport whose round trip fails. -/
def refusing : RoundTripper Unit :=
  fun _ net => ((none, some (GoError.other "connection refused")), net)

/-- The server data `Listen` returns for the listener at `loopback`. -/
def loopbackData : ServerData Unit :=
  { Addr := loopback
    Client := { Transport := { Transport := refusing, Domain := "127.0.0.1:8080" } } }

/-- A delegate transport that records the requests it is handed and fails. -/
def recording : RoundTripper (List Request) :=
  fun req net => ((none, some (GoError.other "connection refused")), net ++ [req])

/-! ## Lemmas -/

theorem Write_Code_of_some (w : ResponseWriter) (data : String) (code : Nat)
    (hw : w.Code = some code) : (w.Write data).Code = some code := by
  unfold ResponseWriter.Write
  simp only [hw]
  repeat' split
  all_goals first | exact hw | rfl

theorem WriteHeader_Code (w : ResponseWriter) (code : Nat) (hw : w.Code = none)
    (hlo : 200 ≤ code) (hhi : code ≤ 999) : (w.WriteHeader code).Code = some code := by
  unfold ResponseWriter.WriteHeader
  simp only [hw]
  have h1 : ¬ (code < 100 ∨ 999 < code) := by omega
  have h2 : ¬ (100 ≤ code ∧ code ≤ 199 ∧ code ≠ 101) := by omega
  rw [if_neg h1, if_neg h2]
  repeat' split
  all_goals rfl

theorem Error_Code (w : ResponseWriter) (error : String) (hw : w.Code = none) :
    (Error w error StatusNotFound).Code = some 404 := by
  unfold Error
  apply Write_Code_of_some
  exact WriteHeader_Code _ 404 hw (by omega) (by omega)

theorem NotFound_Code (w : ResponseWriter) (r : Request) (hw : w.Code = none) :
    (NotFound w r).Code = some 404 := by
  unfold NotFound
  exact Error_Code w _ hw

theorem NotFound_fresh_Body (r : Request) :
    (NotFound (ResponseWriter.fresh r) r).Body
      = if r.Method = "HEAD" then "" else "404 page not found\n" := by
  have hlen : ("404 page not found" ++ "\n" : String).utf8ByteSize = 19 := by decide
  have hmsg : ("404 page not found" ++ "\n" : String) = "404 page not found\n" := by decide
  have hget : Header.get
      (Header.Set (Header.Set (Header.Del [] "Content-Length") "Content-Type"
        "text/plain; charset=utf-8") "X-Content-Type-Options" "nosniff") "Content-Length"
      = "" := by decide
  unfold NotFound Error ResponseWriter.Write ResponseWriter.WriteHeader
  simp only [ResponseWriter.fresh, hget, hlen, StatusNotFound]
  by_cases hHead : r.Method = "HEAD"
  · simp [hHead, bodyAllowedForStatus]
  · simp [hHead, bodyAllowedForStatus, hmsg]

theorem serve_of_mem {σ : Type} (handler : Handler σ) (methods : List String)
    (w : ResponseWriter) (r : Request) (s : σ) (hr : r.Method ∈ methods) :
    allowed.serve handler methods w r s = handler w r s := by
  induction methods with
  | nil => simp at hr
  | cons method rest ih =>
    unfold allowed.serve
    by_cases hm : r.Method = method
    · simp [hm]
    · have hrest : r.Method ∈ rest := by
        rcases List.mem_cons.mp hr with h1 | h1
        · exact absurd h1 hm
        · exact h1
      simp [hm, ih hrest]

theorem serve_of_not_mem {σ : Type} (handler : Handler σ) (methods : List String)
    (w : ResponseWriter) (r : Request) (s : σ) (hr : r.Method ∉ methods) :
    allowed.serve handler methods w r s = (NotFound w r, s) := by
  induction methods with
  | nil => rfl
  | cons method rest ih =>
    unfold allowed.serve
    have hm : r.Method ≠ method := fun h => hr (h ▸ List.mem_cons_self _ _)
    have hrest : r.Method ∉ rest := fun h => hr (List.mem_cons_of_mem _ h)
    simp [hm, ih hrest]

theorem allowed_of_ne_nil {σ : Type} (handler : Handler σ) (methods : List String)
    (hM : methods ≠ []) (w : ResponseWriter) (r : Request) (s : σ) :
    allowed handler methods w r s = allowed.serve handler methods w r s := by
  unfold allowed
  have hlen : methods.length ≠ 0 := fun h => hM (List.length_eq_zero.mp h)
  simp [hlen]

theorem registered_append_of_not_mem {σ : Type} (rules : PatternRules)
    (m : List (String × Handler σ)) (pattern : String) (handler : Handler σ)
    (hnot : pattern ∉ m.map Prod.fst) :
    ServeMux.registered { rules := rules, m := m ++ [(pattern, handler)] } pattern
      = some handler := by
  have hf : m.find? (fun e => e.1 == pattern) = none := by
    apply List.find?_eq_none.mpr
    intro e he hk
    simp only [beq_iff_eq] at hk
    exact hnot (List.mem_map.mpr ⟨e, he, hk⟩)
  unfold ServeMux.registered
  simp [List.find?_append, hf]

theorem Handle_ok {σ : Type} (mux mux1 : ServeMux σ) (pattern : String)
    (handler : Handler σ) (hok : mux.Handle pattern handler = .ok mux1) :
    pattern ∉ mux.m.map Prod.fst ∧
    mux1 = { rules := mux.rules, m := mux.m ++ [(pattern, handler)] } := by
  unfold ServeMux.Handle at hok
  split at hok
  · cases hok
  · split at hok
    · cases hok
    · split at hok
      · cases hok
      · rename_i hany
        injection hok with hok
        refine ⟨?_, hok.symm⟩
        intro hmem
        apply hany
        obtain ⟨e, he, hkey⟩ := List.mem_map.mp hmem
        rw [List.any_eq_true]
        exact ⟨e, he, by simp [hkey]⟩

theorem Handle_registered {σ : Type} (mux mux1 : ServeMux σ) (pattern : String)
    (handler : Handler σ) (hok : mux.Handle pattern handler = .ok mux1) :
    mux1.registered pattern = some handler := by
  obtain ⟨hnot, hmux⟩ := Handle_ok mux mux1 pattern handler hok
  rw [hmux]
  exact registered_append_of_not_mem mux.rules mux.m pattern handler hnot

theorem WithHandler_registered {σ : Type} (urlPath : String) (handler : Handler σ)
    (methods : List String) (srv srv1 : Server σ)
    (hok : WithHandler urlPath handler methods srv = .ok srv1) :
    srv1.mux.registered urlPath = some (allowed handler methods) := by
  unfold WithHandler at hok
  cases hH : srv.mux.Handle urlPath (allowed handler methods) with
  | error p => simp [hH] at hok
  | ok mux =>
    simp [hH] at hok
    rw [← hok]
    exact Handle_registered srv.mux mux urlPath _ hH

theorem WithHandlerFunc_registered {σ : Type} (urlPath : String) (handler : HandlerFunc σ)
    (methods : List String) (srv srv1 : Server σ)
    (hok : WithHandlerFunc urlPath handler methods srv = .ok srv1) :
    srv1.mux.registered urlPath = some (allowed handler methods) := by
  unfold WithHandlerFunc at hok
  cases hH : srv.mux.Handle urlPath (allowed handler methods) with
  | error p => simp [hH] at hok
  | ok mux =>
    simp [hH] at hok
    rw [← hok]
    exact Handle_registered srv.mux mux urlPath _ hH

/-! ## The method filter (C1-C4) -/

/-- C1: when the request's method is an element of the method list (which is
then non-empty), the handler `allowed h M` gives exactly the result of one
call `h.ServeHTTP(w, r)` with the same writer and request: the response is the
one `h` produces and nothing else is written, and a handler that counts its
invocations has been invoked exactly once.  The handler `WithHandler` and
`WithHandlerFunc` register at their path is this one. -/
theorem allowed_delegates_once {σ : Type} (h : Handler σ) (M : List String) (r : Request)
    (hr : r.Method ∈ M) (w : ResponseWriter) (s : σ) (n : Nat) :
    allowed h M w r s = h w r s ∧
    allowed (counting h) M w r (s, n) = ((h w r s).1, ((h w r s).2, n + 1)) ∧
    (∀ (urlPath : String) (srv srv1 : Server σ), WithHandler urlPath h M srv = .ok srv1 →
      ∃ H, srv1.mux.registered urlPath = some H ∧ H w r s = h w r s) ∧
    (∀ (urlPath : String) (srv srv1 : Server σ), WithHandlerFunc urlPath h M srv = .ok srv1 →
      ∃ H, srv1.mux.registered urlPath = some H ∧ H w r s = h w r s) := by
  have hM : M ≠ [] := List.ne_nil_of_mem hr
  have key : ∀ {τ : Type} (g : Handler τ) (t : τ), allowed g M w r t = g w r t := by
    intro τ g t
    rw [allowed_of_ne_nil g M hM, serve_of_mem g M w r t hr]
  refine ⟨key h s, ?_, ?_, ?_⟩
  · rw [key (counting h) (s, n)]
    rfl
  · intro urlPath srv srv1 hok
    exact ⟨allowed h M, WithHandler_registered urlPath h M srv srv1 hok, key h s⟩
  · intro urlPath srv srv1 hok
    exact ⟨allowed h M, WithHandlerFunc_registered urlPath h M srv srv1 hok, key h s⟩

/-- Witness of C1: the handler of the examples behind the method list "GET",
for a GET request on a fresh writer. -/
theorem allowed_delegates_once_witness :
    exampleGet.Method ∈ ["GET"] ∧
    allowed exampleHandler ["GET"] (ResponseWriter.fresh exampleGet) exampleGet () =
      exampleHandler (ResponseWriter.fresh exampleGet) exampleGet () ∧
    allowed (counting exampleHandler) ["GET"] (ResponseWriter.fresh exampleGet) exampleGet ((), 0) =
      ((exampleHandler (ResponseWriter.fresh exampleGet) exampleGet ()).1,
        ((exampleHandler (ResponseWriter.fresh exampleGet) exampleGet ()).2, 0 + 1)) :=
  ⟨by decide,
   (allowed_delegates_once exampleHandler ["GET"] exampleGet (by decide)
      (ResponseWriter.fresh exampleGet) () 0).1,
   (allowed_delegates_once exampleHandler ["GET"] exampleGet (by decide)
      (ResponseWriter.fresh exampleGet) () 0).2.1⟩

/-- C2: when the method list is not empty and the request's method is not an
element of it, the handler `allowed h M` answers a request whose header has
not been written yet with status 404, and does not invoke `h`: the result is
that of `http.NotFound(w, r)` alone, the state `h` works on is unchanged, and
a handler that counts its invocations has not been invoked. -/
theorem allowed_not_found {σ : Type} (h : Handler σ) (M : List String) (hM : M ≠ [])
    (r : Request) (hr : r.Method ∉ M) (w : ResponseWriter) (hw : w.Code = none)
    (s : σ) (n : Nat) :
    (allowed h M w r s).1.Code = some 404 ∧
    allowed h M w r s = (NotFound w r, s) ∧
    allowed (counting h) M w r (s, n) = (NotFound w r, (s, n)) := by
  have key : ∀ {τ : Type} (g : Handler τ) (t : τ), allowed g M w r t = (NotFound w r, t) := by
    intro τ g t
    rw [allowed_of_ne_nil g M hM, serve_of_not_mem g M w r t hr]
  refine ⟨?_, key h s, key (counting h) (s, n)⟩
  rw [key h s]
  exact NotFound_Code w r hw

/-- Witness of C2: the handler registered for "GET" and a POST to "/data"
(server_test.go 85-110) give status 404. -/
theorem allowed_not_found_witness :
    (["GET"] : List String) ≠ [] ∧ examplePost.Method ∉ ["GET"] ∧
    (ResponseWriter.fresh examplePost).Code = none ∧
    (allowed exampleHandler ["GET"] (ResponseWriter.fresh examplePost) examplePost ()).1.Code
      = some 404 :=
  ⟨by decide, by decide, rfl,
   (allowed_not_found exampleHandler ["GET"] (by decide) examplePost (by decide)
      (ResponseWriter.fresh examplePost) rfl () 0).1⟩

/-- C3, as stated, fails: with the method list "GET", the answer to a POST
has the body "404 page not found" and a newline, not the empty body. -/
theorem allowed_not_found_body_not_empty :
    (["GET"] : List String) ≠ [] ∧ examplePost.Method ∉ ["GET"] ∧
    (allowed exampleHandler ["GET"] (ResponseWriter.fresh examplePost) examplePost ()).1.Body
      = "404 page not found\n" ∧
    (allowed exampleHandler ["GET"] (ResponseWriter.fresh examplePost) examplePost ()).1.Body
      ≠ "" := by
  refine ⟨by decide, by decide, ?_, ?_⟩
  · decide
  · decide

/-- C3, amended: when the method list is not empty and the request's method
is not an element of it, the response the server sends for the request through
`allowed h M` has an empty body when the request's method is HEAD, and
otherwise the body `http.NotFound` writes, the text "404 page not found" and
a newline. -/
theorem allowed_not_found_body {σ : Type} (h : Handler σ) (M : List String) (hM : M ≠ [])
    (r : Request) (hr : r.Method ∉ M) (s : σ) :
    (r.Method = "HEAD" → (allowed h M (ResponseWriter.fresh r) r s).1.Body = "") ∧
    (r.Method ≠ "HEAD" →
      (allowed h M (ResponseWriter.fresh r) r s).1.Body = "404 page not found\n") := by
  have hbody : (allowed h M (ResponseWriter.fresh r) r s).1.Body
      = if r.Method = "HEAD" then "" else "404 page not found\n" := by
    rw [allowed_of_ne_nil h M hM, serve_of_not_mem h M _ r s hr]
    exact NotFound_fresh_Body r
  constructor
  · intro hHead
    rw [hbody, if_pos hHead]
  · intro hHead
    rw [hbody, if_neg hHead]

/-- Witness of C3, amended: with the method list "GET", a HEAD request gets
an empty body and the POST of the examples gets the text. -/
theorem allowed_not_found_body_witness :
    ((["GET"] : List String) ≠ [] ∧ exampleHead.Method ∉ ["GET"] ∧
      exampleHead.Method = "HEAD" ∧
      (allowed exampleHandler ["GET"] (ResponseWriter.fresh exampleHead) exampleHead ()).1.Body
        = "") ∧
    (examplePost.Method ∉ ["GET"] ∧ examplePost.Method ≠ "HEAD" ∧
      (allowed exampleHandler ["GET"] (ResponseWriter.fresh examplePost) examplePost ()).1.Body
        = "404 page not found\n") :=
  ⟨⟨by decide, by decide, by decide,
    (allowed_not_found_body exampleHandler ["GET"] (by decide) exampleHead (by decide) ()).1
      (by decide)⟩,
   ⟨by decide, by decide,
    (allowed_not_found_body exampleHandler ["GET"] (by decide) examplePost (by decide) ()).2
      (by decide)⟩⟩

/-- C4: with no methods the filter is a no-op: `allowed h` is `h` itself, so
it behaves as `h` for every request, whatever its method, and the handler
`WithHandler` and `WithHandlerFunc` register at their path without methods is
`h`. -/
theorem allowed_no_methods {σ : Type} (h : Handler σ) :
    allowed h [] = h ∧
    (∀ (w : ResponseWriter) (r : Request) (s : σ), allowed h [] w r s = h w r s) ∧
    (∀ (urlPath : String) (srv srv1 : Server σ), WithHandler urlPath h [] srv = .ok srv1 →
      srv1.mux.registered urlPath = some h) ∧
    (∀ (urlPath : String) (srv srv1 : Server σ), WithHandlerFunc urlPath h [] srv = .ok srv1 →
      srv1.mux.registered urlPath = some h) := by
  have h0 : allowed h [] = h := rfl
  refine ⟨h0, fun w r s => by rw [h0], ?_, ?_⟩
  · intro urlPath srv srv1 hok
    have hreg := WithHandler_registered urlPath h [] srv srv1 hok
    rw [h0] at hreg
    exact hreg
  · intro urlPath srv srv1 hok
    have hreg := WithHandlerFunc_registered urlPath h [] srv srv1 hok
    rw [h0] at hreg
    exact hreg

/-- Witness of C4: the handler of the examples registered at "/data" without
methods on a new server. -/
theorem allowed_no_methods_witness :
    WithHandler "/data" exampleHandler [] { mux := NewServeMux classicRules }
      = .ok { mux := { rules := classicRules, m := [("/data", exampleHandler)] } } ∧
    ServeMux.registered { rules := classicRules, m := [("/data", exampleHandler)] } "/data"
      = some exampleHandler ∧
    allowed exampleHandler [] (ResponseWriter.fresh examplePost) examplePost ()
      = exampleHandler (ResponseWriter.fresh examplePost) examplePost () :=
  ⟨by rfl,
   (allowed_no_methods exampleHandler).2.2.1 "/data" { mux := NewServeMux classicRules }
      { mux := { rules := classicRules, m := [("/data", exampleHandler)] } } (by rfl),
   (allowed_no_methods exampleHandler).2.1 (ResponseWriter.fresh examplePost) examplePost ()⟩

/-! ## The redirecting transport (C5, C6, C8) -/

/-- C5: for every transport and request there is one request that `RoundTrip`
hands to the delegate, whatever the delegate is; its URL host is the
transport's `Domain` and its URL scheme is "http", whatever the caller
supplied, and its path, query, method, headers and body are those of the
original request. -/
theorem RoundTrip_rewrites_target {ν : Type} (t : transport ν) (req : Request) :
    ∃ sent : Request,
      (∀ (delegate : RoundTripper ν) (net : ν),
        transport.RoundTrip { Transport := delegate, Domain := t.Domain } req net
          = delegate sent net) ∧
      (∀ net : ν, t.RoundTrip req net = t.Transport sent net) ∧
      sent.URL.Host = t.Domain ∧ sent.URL.Scheme = "http" ∧
      sent.URL.Path = req.URL.Path ∧ sent.URL.RawQuery = req.URL.RawQuery ∧
      sent.Method = req.Method ∧ sent.Header = req.Header ∧ sent.Body = req.Body :=
  ⟨{ req with URL := { req.URL with Host := t.Domain, Scheme := "http" } },
    fun _ _ => rfl, fun _ => rfl, rfl, rfl, rfl, rfl, rfl, rfl, rfl⟩

/-- C6: the result of `RoundTrip` is the pair `(response, error)` the delegate
returns on the rewritten request, and the network state it leaves: the
response and the error are the delegate's, unchanged, and `RoundTrip` fails
exactly when the delegate fails. -/
theorem RoundTrip_returns_delegate_result {ν : Type} (t : transport ν) (req : Request) (net : ν) :
    t.RoundTrip req net
      = t.Transport { req with URL := { req.URL with Host := t.Domain, Scheme := "http" } } net ∧
    (t.RoundTrip req net).1.1
      = (t.Transport { req with URL := { req.URL with Host := t.Domain, Scheme := "http" } }
          net).1.1 ∧
    (t.RoundTrip req net).1.2
      = (t.Transport { req with URL := { req.URL with Host := t.Domain, Scheme := "http" } }
          net).1.2 ∧
    ((t.RoundTrip req net).1.2 ≠ none ↔
      (t.Transport { req with URL := { req.URL with Host := t.Domain, Scheme := "http" } }
          net).1.2 ≠ none) :=
  ⟨rfl, rfl, rfl, Iff.rfl⟩

/-- C8: whenever `Listen` binds and returns, the client of the returned
server data uses a redirecting transport whose `Domain` is the IP of the
returned address, a colon and its port in decimal, the address being the one
of the listener; so every request sent through that transport, whatever its
scheme and host, is handed to `http.DefaultTransport` with that host and the
scheme "http". -/
theorem Listen_client_targets_listener {σ ν : Type} (srv : Server σ)
    (listened : Except GoError TCPAddr) (DefaultTransport : RoundTripper ν)
    (data : ServerData ν) (close : Runtime → Runtime) (rt : Runtime)
    (hL : srv.Listen listened DefaultTransport = .ok (data, close, rt)) :
    listened = .ok data.Addr ∧
    data.Client.Transport.Domain = data.Addr.IP.String ++ ":" ++ toString data.Addr.Port ∧
    data.Client.Transport.Transport = DefaultTransport ∧
    ∀ (req : Request) (net : ν), ∃ sent : Request,
      data.Client.Transport.RoundTrip req net = DefaultTransport sent net ∧
      sent.URL.Host = data.Addr.IP.String ++ ":" ++ toString data.Addr.Port ∧
      sent.URL.Scheme = "http" ∧ sent.URL.Path = req.URL.Path := by
  unfold Server.Listen at hL
  cases listened with
  | error err => simp at hL
  | ok addr =>
    simp only [Except.ok.injEq, Prod.mk.injEq] at hL
    obtain ⟨hdata, -, -⟩ := hL
    subst hdata
    refine ⟨rfl, rfl, rfl, ?_⟩
    intro req net
    exact ⟨{ req with URL := { req.URL with
              Host := addr.IP.String ++ ":" ++ toString addr.Port, Scheme := "http" } },
      rfl, rfl, rfl, rfl⟩

/-- Witness of C8: a listener bound on 127.0.0.1, port 8080; the domain is
"127.0.0.1:8080". -/
theorem Listen_client_targets_listener_witness :
    Server.Listen exampleServer (.ok loopback) refusing
      = .ok (loopbackData, Listen.close, Runtime.bound) ∧
    loopbackData.Client.Transport.Domain
      = loopbackData.Addr.IP.String ++ ":" ++ toString loopbackData.Addr.Port ∧
    loopbackData.Addr.IP.String ++ ":" ++ toString loopbackData.Addr.Port = "127.0.0.1:8080" :=
  ⟨rfl,
   (Listen_client_targets_listener exampleServer (.ok loopback) refusing
      loopbackData Listen.close Runtime.bound rfl).2.1,
   by decide⟩

/-! ## The background task and the teardown (C9, C10) -/

/-- C9: the goroutine started by `Listen` panics if and only if `server.Serve`
returned an error that is not nil and differs from `http.ErrServerClosed`, and
then with that error; `http.ErrServerClosed` raises nothing. -/
theorem serve_panics_iff (served : Option GoError) :
    ((∃ p, Listen.serve served = .error p) ↔
      ∃ err, served = some err ∧ err ≠ GoError.ErrServerClosed) ∧
    ((∃ err, served = some err ∧ err ≠ GoError.ErrServerClosed ∧
        Listen.serve served = .error (Panic.err err)) ∨ Listen.serve served = .ok ()) ∧
    Listen.serve (some GoError.ErrServerClosed) = .ok () ∧
    Listen.serve none = .ok () := by
  refine ⟨?_, ?_, rfl, rfl⟩
  · cases served with
    | none => simp [Listen.serve]
    | some err =>
      by_cases he : err = GoError.ErrServerClosed
      · simp [Listen.serve, he]
      · simp [Listen.serve, he]
  · cases served with
    | none => exact Or.inr rfl
    | some err =>
      by_cases he : err = GoError.ErrServerClosed
      · right
        simp [Listen.serve, he]
      · left
        exact ⟨err, rfl, he, by simp [Listen.serve, he]⟩

theorem close_listenerClosed (rt : Runtime) : (Listen.close rt).listenerClosed = true := rfl

theorem close_serverClosed (rt : Runtime) : (Listen.close rt).serverClosed = true := by
  simp [Listen.close, runDeferred, Runtime.listenerClose, Runtime.serverClose]

theorem close_closes (rt : Runtime) :
    (Listen.close rt).closes = rt.closes ++ ["server.Close", "listener.Close"] := by
  simp [Listen.close, runDeferred, Runtime.listenerClose, Runtime.serverClose]

theorem step_keeps_closed (rt : Runtime) (op : Op)
    (hl : rt.listenerClosed = true) (hs : rt.serverClosed = true) :
    (rt.step op).listenerClosed = true ∧ (rt.step op).serverClosed = true := by
  cases op with
  | teardown => exact ⟨close_listenerClosed rt, close_serverClosed rt⟩
  | serve => simp [Runtime.step, hs, hl]
  | request => exact ⟨hl, hs⟩

theorem run_keeps_closed (ops : List Op) (rt : Runtime)
    (hl : rt.listenerClosed = true) (hs : rt.serverClosed = true) :
    (rt.run ops).listenerClosed = true ∧ (rt.run ops).serverClosed = true := by
  induction ops generalizing rt with
  | nil => exact ⟨hl, hs⟩
  | cons op rest ih =>
    unfold Runtime.run
    exact ih (rt.step op) (step_keeps_closed rt op hl hs).1 (step_keeps_closed rt op hl hs).2

/-- C10: a server is unstarted before `Listen` and listening when `Listen`
has returned.  Whatever happened since, the teardown function `Listen`
returned closes the HTTP server and the listener, the server first, then the
listener; after it, whatever is done with what `Listen` returned (the teardown
again, the background task reaching `server.Serve`, requests through the
client), the server stays stopped and the bound address takes no new
connection. -/
theorem teardown_is_terminal {σ ν : Type} (srv : Server σ) (listened : Except GoError TCPAddr)
    (DefaultTransport : RoundTripper ν) (data : ServerData ν) (close : Runtime → Runtime)
    (rt0 : Runtime) (hL : srv.Listen listened DefaultTransport = .ok (data, close, rt0))
    (before after : List Op) :
    phase none = Phase.Unstarted ∧ phase (some rt0) = Phase.Listening ∧
    (close (rt0.run before)).serverClosed = true ∧
    (close (rt0.run before)).listenerClosed = true ∧
    (close (rt0.run before)).closes
      = (rt0.run before).closes ++ ["server.Close", "listener.Close"] ∧
    phase (some (close (rt0.run before))) = Phase.Stopped ∧
    phase (some ((close (rt0.run before)).run after)) = Phase.Stopped ∧
    ((close (rt0.run before)).run after).accepts = false := by
  unfold Server.Listen at hL
  cases listened with
  | error err => simp at hL
  | ok addr =>
    simp only [Except.ok.injEq, Prod.mk.injEq] at hL
    obtain ⟨-, hclose, hrt⟩ := hL
    subst hclose
    subst hrt
    have hl := close_listenerClosed (Runtime.bound.run before)
    have hs := close_serverClosed (Runtime.bound.run before)
    have hrun := run_keeps_closed after (Listen.close (Runtime.bound.run before)) hl hs
    refine ⟨rfl, rfl, hs, hl, close_closes _, ?_, ?_, ?_⟩
    · simp [phase, hl]
    · simp [phase, hrun.1]
    · simp [Runtime.accepts, hrun.1]

/-- Witness of C10: the listener at `loopback`; the background task serves,
a request is sent, the teardown runs, and afterwards the background task, a
request and the teardown again. -/
theorem teardown_is_terminal_witness :
    Server.Listen exampleServer (.ok loopback) refusing
      = .ok (loopbackData, Listen.close, Runtime.bound) ∧
    (Listen.close (Runtime.bound.run [Op.serve, Op.request])).closes
      = (Runtime.bound.run [Op.serve, Op.request]).closes ++ ["server.Close", "listener.Close"] ∧
    phase (some ((Listen.close (Runtime.bound.run [Op.serve, Op.request])).run
      [Op.serve, Op.request, Op.teardown])) = Phase.Stopped :=
  ⟨rfl,
   (teardown_is_terminal exampleServer (.ok loopback) refusing loopbackData Listen.close
      Runtime.bound rfl [Op.serve, Op.request] [Op.serve, Op.request, Op.teardown]).2.2.2.2.1,
   (teardown_is_terminal exampleServer (.ok loopback) refusing loopbackData Listen.close
      Runtime.bound rfl [Op.serve, Op.request] [Op.serve, Op.request, Op.teardown]).2.2.2.2.2.2.1⟩

/-! ## The route table (C7) -/

theorem option_eq_Handle {σ : Type} (c : OptionCall σ) (s : Server σ) :
    c.option s =
      match s.mux.Handle c.urlPath c.handler with
      | .error p => .error p
      | .ok mux => .ok { s with mux := mux } := by
  cases c <;> rfl

theorem option_ok {σ : Type} (c : OptionCall σ) (s s1 : Server σ)
    (hok : c.option s = .ok s1) :
    c.urlPath ∉ s.mux.m.map Prod.fst ∧
    s1.mux = { rules := s.mux.rules, m := s.mux.m ++ [(c.urlPath, c.handler)] } := by
  rw [option_eq_Handle] at hok
  cases hH : s.mux.Handle c.urlPath c.handler with
  | error p =>
    rw [hH] at hok
    cases hok
  | ok mux =>
    rw [hH] at hok
    injection hok with hok
    obtain ⟨hnot, hmux⟩ := Handle_ok s.mux mux c.urlPath c.handler hH
    refine ⟨hnot, ?_⟩
    rw [← hok, ← hmux]

theorem apply_ok {σ : Type} (calls : List (OptionCall σ)) (s srv : Server σ)
    (hok : NewServer.apply (calls.map OptionCall.option) s = .ok srv) :
    (calls.map OptionCall.urlPath).Nodup ∧
    (∀ c ∈ calls, c.urlPath ∉ s.mux.m.map Prod.fst) ∧
    srv.mux.m = s.mux.m ++ calls.map (fun c => (c.urlPath, c.handler)) := by
  induction calls generalizing s with
  | nil =>
    simp only [List.map_nil, NewServer.apply] at hok
    injection hok with hok
    subst hok
    refine ⟨List.nodup_nil, ?_, ?_⟩
    · intro c hc
      cases hc
    · rw [List.map_nil, List.append_nil]
  | cons c rest ih =>
    simp only [List.map_cons, NewServer.apply] at hok
    cases hopt : c.option s with
    | error p =>
      rw [hopt] at hok
      cases hok
    | ok s1 =>
      rw [hopt] at hok
      obtain ⟨hnot, hmux⟩ := option_ok c s s1 hopt
      have hm1 : s1.mux.m = s.mux.m ++ [(c.urlPath, c.handler)] := by rw [hmux]
      obtain ⟨hnd, hnew, hm⟩ := ih s1 hok
      have hrest : ∀ c1 ∈ rest, c1.urlPath ∉ s.mux.m.map Prod.fst ∧ c1.urlPath ≠ c.urlPath := by
        intro c1 hc1
        have h1 := hnew c1 hc1
        rw [hm1, List.map_append, List.mem_append, not_or] at h1
        refine ⟨h1.1, ?_⟩
        intro heq
        exact h1.2 (heq ▸ List.mem_cons_self _ _)
      refine ⟨?_, ?_, ?_⟩
      · rw [List.map_cons, List.nodup_cons]
        refine ⟨?_, hnd⟩
        intro hmem
        obtain ⟨c1, hc1, hpath⟩ := List.mem_map.mp hmem
        exact (hrest c1 hc1).2 hpath
      · intro c1 hc1
        rcases List.mem_cons.mp hc1 with heq | hin
        · rw [heq]
          exact hnot
        · exact (hrest c1 hin).1
      · rw [hm, hm1, List.map_cons, List.append_assoc]
        rfl

theorem registered_cons {σ : Type} (rules : PatternRules) (pattern : String)
    (handler : Handler σ) (m : List (String × Handler σ)) (key : String) :
    ServeMux.registered { rules := rules, m := (pattern, handler) :: m } key
      = if pattern = key then some handler
        else ServeMux.registered { rules := rules, m := m } key := by
  unfold ServeMux.registered
  by_cases hkey : pattern = key
  · have hb : (fun e : String × Handler σ => e.1 == key) (pattern, handler) = true := by
      simp only [beq_iff_eq, hkey]
    have hfind : List.find? (fun e : String × Handler σ => e.1 == key) ((pattern, handler) :: m)
        = some (pattern, handler) := List.find?_cons_of_pos m hb
    rw [if_pos hkey]
    show (match List.find? (fun e : String × Handler σ => e.1 == key) ((pattern, handler) :: m) with
      | some e => some e.2
      | none => none) = some handler
    rw [hfind]
  · have hb : ¬ ((fun e : String × Handler σ => e.1 == key) (pattern, handler) = true) := by
      simp only [beq_iff_eq, hkey, not_false_eq_true]
    have hfind : List.find? (fun e : String × Handler σ => e.1 == key) ((pattern, handler) :: m)
        = List.find? (fun e : String × Handler σ => e.1 == key) m :=
      List.find?_cons_of_neg m hb
    rw [if_neg hkey]
    show (match List.find? (fun e : String × Handler σ => e.1 == key) ((pattern, handler) :: m) with
      | some e => some e.2
      | none => none)
      = (match List.find? (fun e : String × Handler σ => e.1 == key) m with
      | some e => some e.2
      | none => none)
    rw [hfind]

theorem registered_of_mem {σ : Type} (rules : PatternRules) (calls : List (OptionCall σ))
    (c : OptionCall σ) (hnd : (calls.map OptionCall.urlPath).Nodup) (hc : c ∈ calls) :
    ServeMux.registered { rules := rules, m := calls.map (fun c => (c.urlPath, c.handler)) }
        c.urlPath
      = some c.handler := by
  induction calls with
  | nil => simp at hc
  | cons c0 rest ih =>
    simp only [List.map_cons, List.nodup_cons] at hnd
    rw [List.map_cons, registered_cons]
    by_cases hkey : c0.urlPath = c.urlPath
    · rcases List.mem_cons.mp hc with heq | hrest
      · rw [if_pos hkey, heq]
      · exact absurd (hkey ▸ List.mem_map_of_mem _ hrest) hnd.1
    · have hrest : c ∈ rest := by
        rcases List.mem_cons.mp hc with heq | hrest
        · exact absurd (heq ▸ rfl) hkey
        · exact hrest
      rw [if_neg hkey]
      exact ih hnd.2 hrest

theorem registered_congr {σ : Type} (mux1 mux2 : ServeMux σ) (key : String)
    (hm : mux1.m = mux2.m) : mux1.registered key = mux2.registered key := by
  unfold ServeMux.registered
  rw [hm]

/-- C7, as stated, fails: two options that register the path "/data" make
`NewServer` panic in `ServeMux.Handle`, whatever the pattern rules of the mux
are, and with the rules of the classic mux when the second option is applied;
no server is built. -/
theorem NewServer_same_path_panics :
    (NewServer classicRules
        [WithHandler "/data" exampleHandler [], WithHandler "/data" otherHandler []]
      = .error (Panic.multipleRegistrations "/data")) ∧
    (∀ rules : PatternRules, ∃ p,
      NewServer rules [WithHandler "/data" exampleHandler [], WithHandler "/data" otherHandler []]
        = .error p) := by
  refine ⟨by rfl, ?_⟩
  intro rules
  cases hres : NewServer rules
      [WithHandler "/data" exampleHandler [], WithHandler "/data" otherHandler []] with
  | error p => exact ⟨p, rfl⟩
  | ok srv =>
    have hnd := (apply_ok [OptionCall.withHandler "/data" exampleHandler [],
      OptionCall.withHandler "/data" otherHandler []] { mux := NewServeMux rules } srv hres).1
    exact absurd hnd (by decide)

/-- C7, amended: when two of the options passed to `NewServer` register the
same URL path, the construction panics and builds no server; whenever the
construction completes, the paths of the options are pairwise distinct and
the route table maps the path of every option to the handler of that
option. -/
theorem NewServer_paths {σ : Type} (rules : PatternRules) (calls : List (OptionCall σ)) :
    (¬ (calls.map OptionCall.urlPath).Nodup →
      ∃ p, NewServer rules (calls.map OptionCall.option) = .error p) ∧
    (∀ srv, NewServer rules (calls.map OptionCall.option) = .ok srv →
      (calls.map OptionCall.urlPath).Nodup ∧
      ∀ c ∈ calls, srv.mux.registered c.urlPath = some c.handler) := by
  constructor
  · intro hnd
    cases hres : NewServer rules (calls.map OptionCall.option) with
    | error p => exact ⟨p, rfl⟩
    | ok srv => exact absurd (apply_ok calls { mux := NewServeMux rules } srv hres).1 hnd
  · intro srv hres
    obtain ⟨hnd, -, hm⟩ := apply_ok calls { mux := NewServeMux rules } srv hres
    refine ⟨hnd, ?_⟩
    intro c hc
    have hm1 : srv.mux.m
        = (ServeMux.mk rules (calls.map (fun c => (c.urlPath, c.handler)))).m := by
      rw [hm]
      exact List.nil_append _
    rw [registered_congr srv.mux _ c.urlPath hm1]
    exact registered_of_mem rules calls c hnd hc

/-- Witness of C7, amended: twice the path "/data" panics; with the paths
"/data" and "/other" the construction completes and both are registered. -/
theorem NewServer_paths_witness :
    (∃ p, NewServer classicRules (([OptionCall.withHandler "/data" exampleHandler [],
        OptionCall.withHandlerFunc "/data" otherHandler ["GET"]]).map OptionCall.option)
      = .error p) ∧
    NewServer classicRules (([OptionCall.withHandler "/data" exampleHandler [],
        OptionCall.withHandlerFunc "/other" otherHandler ["GET"]]).map OptionCall.option)
      = .ok (Server.mk (ServeMux.mk classicRules
          [("/data", allowed exampleHandler []), ("/other", allowed otherHandler ["GET"])])) ∧
    (∀ c ∈ [OptionCall.withHandler "/data" exampleHandler [],
          OptionCall.withHandlerFunc "/other" otherHandler ["GET"]],
        ServeMux.registered (ServeMux.mk classicRules
            [("/data", allowed exampleHandler []), ("/other", allowed otherHandler ["GET"])])
          c.urlPath = some c.handler) :=
  ⟨(NewServer_paths classicRules [OptionCall.withHandler "/data" exampleHandler [],
        OptionCall.withHandlerFunc "/data" otherHandler ["GET"]]).1 (by decide),
   by rfl,
   ((NewServer_paths classicRules [OptionCall.withHandler "/data" exampleHandler [],
        OptionCall.withHandlerFunc "/other" otherHandler ["GET"]]).2 _ (by rfl)).2⟩

/-! ## The scenarios of server_test.go, evaluated -/

theorem example_get_allowed :
    (allowed exampleHandler ["GET"] (ResponseWriter.fresh exampleGet) exampleGet ()).1
      = { req := exampleGet, Header := [], Code := some 200, contentLength := none,
          written := 26, Body := "Lorem ipsum dolor sit amet" } := by
  decide

theorem example_post_not_allowed :
    (allowed exampleHandler ["GET"] (ResponseWriter.fresh examplePost) examplePost ()).1
      = { req := examplePost
          Header := [("Content-Type", "text/plain; charset=utf-8"),
                     ("X-Content-Type-Options", "nosniff")]
          Code := some 404, contentLength := none, written := 19
          Body := "404 page not found\n" } := by
  decide

theorem example_head_not_allowed :
    (allowed exampleHandler ["GET"] (ResponseWriter.fresh exampleHead) exampleHead ()).1
      = { req := exampleHead
          Header := [("Content-Type", "text/plain; charset=utf-8"),
                     ("X-Content-Type-Options", "nosniff")]
          Code := some 404, contentLength := none, written := 19
          Body := "" } := by
  decide

theorem example_lower_case_not_allowed :
    (allowed exampleHandler ["GET"]
        (ResponseWriter.fresh { exampleGet with Method := "get" })
        { exampleGet with Method := "get" } ()).1.Code
      = some 404 := by
  decide

theorem example_post_no_methods :
    (allowed exampleHandler [] (ResponseWriter.fresh examplePost) examplePost ()).1
      = { req := examplePost, Header := [], Code := some 200, contentLength := none,
          written := 26, Body := "Lorem ipsum dolor sit amet" } := by
  decide

theorem example_content_length :
    parseContentLength "19" = some 19 ∧ parseContentLength "+7" = some 7 ∧
    parseContentLength "-0" = some 0 ∧ parseContentLength "-1" = none ∧
    parseContentLength "1_0" = none ∧ parseContentLength "" = none ∧
    parseContentLength "9223372036854775808" = none := by
  decide

theorem example_provided_client :
    transport.RoundTrip { Transport := recording, Domain := "127.0.0.1:8080" } madeUpGet []
      = ((none, some (GoError.other "connection refused")),
          [{ Method := "GET"
             URL := { Scheme := "http", Host := "127.0.0.1:8080", Path := "/data",
                      RawQuery := "a=1" }
             Header := [("Accept", "text/plain")]
             Body := "" }]) := by
  decide

theorem example_teardown_before_serve :
    (Listen.close Runtime.bound).run [Op.serve]
      = { listenerClosed := true, serverClosed := true, serving := false,
          closes := ["server.Close", "listener.Close"] } := by
  decide

end Fixtures
